import Mathlib

/-
Verification of the agent-bench-optimizer core triad
(specification-to-test compiler, execution orchestrator, optimization
controller) against its natural-language specification.

Shallow embedding conventions:
  * TypeScript records become Lean structures; `Record<string, T>` becomes
    an association list `List (String × T)` (JS object key lookup is
    `List.lookup`, first binding wins).
  * `undefined`/`null`-able values become `Option`; JS `x ?? d` becomes
    `Option.getD`, and JS `x || d` on numbers becomes `jsOrDefault`
    (which also treats `0` as falsy, exactly like `||`).
  * JS numbers are modelled as `Rat` (the arithmetic the code performs on
    them — counting, division by a count, comparison with a threshold —
    is exact in the ranges involved).
  * Asynchronous external collaborators (the vitest test host, the
    inference provider) are oracles passed in as explicit arguments:
    the host's report is an `Except` value (`Except.error` models the
    submission itself throwing), the provider's reply on the i-th
    feedback call is `providerText i`.
  * Braces inside generated-code strings are written with the escapes
    \x7b and \x7d.
-/

/-! ## Data model (src/schemas/agent-spec.ts) -/

/-- JSON-like runtime values, used for schema payloads and for the
semantics of generated zod validators. -/
inductive JsonValue where
  | str (s : String)
  | num (q : Rat)
  | bool (b : Bool)
  | null
  | arr (elems : List JsonValue)
  | obj (fields : List (String × JsonValue))

/-- True exactly on JSON string values. -/
def JsonValue.isString : JsonValue → Bool
  | .str _ => true
  | _ => false

/-- MetadataSchema: name, version, description, optional date. -/
structure Metadata where
  name : String
  version : String
  description : String
  date : Option String

/-- One nested property of an object-typed schema property.  The
transpiler only ever reads its `type` (and, for tool inputs, its
`description`), so that is the depth modelled here. -/
structure NestedPropDef where
  type : String
  description : Option String

/-- One declared property of a named output schema or of a tool input
schema: a type tag plus the optional sub-fields the transpiler
inspects. -/
structure PropDef where
  type : String
  description : Option String
  properties : Option (List (String × NestedPropDef))

/-- SchemaPropertySchema: a named output schema (type tag plus its
property record; `required` is carried but never read by the core). -/
structure SchemaDef where
  type : String
  properties : List (String × PropDef)
  required : Option (List String)

/-- Tool input schema: `{type, properties?}`. -/
structure ToolInputSchema where
  type : String
  properties : Option (List (String × PropDef))

/-- A tool's `outputSchema` is a union `string | object`; a non-string
value is only ever passed through `JSON.stringify`, so it is modelled by
its serialized text. -/
inductive OutputSchema where
  | ref (name : String)
  | inlineJson (json : String)

/-- ToolSchema: description, input schema, output schema, optional
synthetic-generation template. -/
structure Tool where
  description : String
  inputSchema : Option ToolInputSchema
  outputSchema : OutputSchema
  generate : Option (List (String × JsonValue))

/-- MessageSchema: one conversation turn. -/
structure Message where
  role : String
  content : String

/-- Minimum-score requirement inside a judge's `expected` block. -/
structure ScoreMin where
  min : Rat

/-- Judge `expected` block: `{passed, score?}`. -/
structure JudgeExpected where
  passed : Bool
  score : Option ScoreMin

/-- Judge descriptor of a benchmark case. -/
structure Judge where
  evaluationPrompt : String
  evaluationSchema : String
  expected : JudgeExpected

/-- BenchmarkSchema: one named scenario. -/
structure Benchmark where
  name : String
  seed : Option Int
  messages : List Message
  tools : Option (List String)
  judge : Judge

/-- The agent's `toolChoice` is `string | object`. -/
inductive ToolChoice where
  | str (s : String)
  | obj (fields : List (String × JsonValue))

/-- AgentSchema: the agent block. -/
structure Agent where
  model : String
  systemPrompt : String
  toolChoice : ToolChoice
  maxSteps : Option Nat

/-- GeneratorSchema: synthetic-data generators (carried in the data
model; not read by the core triad). -/
inductive Generator where
  | dateRange (start stop : String)
  | listValues (values : List JsonValue)
  | patternFormat (format : String)
  | numberRange (min max : Rat)

/-- AgentSpecSchema: the root Specification entity. -/
structure AgentSpec where
  metadata : Metadata
  schemas : List (String × SchemaDef)
  generators : Option (List (String × Generator))
  agent : Agent
  tools : List (String × Tool)
  benchmarks : List Benchmark

/-- Optimizer configuration (type `Optimizer` of the schemas module, as
constructed by the optimize CLI command). -/
structure Optimizer where
  model : String
  iterations : Nat
  strategy : String
  feedbackPrompt : Option String
  minPassRate : Option Rat

/-! ## String-generation helpers shared by the transpiler -/

/-- The backtick character (written via its code point so that generated
program text stays inside string literals). -/
def backtickChar : Char := Char.ofNat 96

/-- Lower-case hexadecimal digit. -/
def hexDigit (n : Nat) : Char :=
  if n < 10 then Char.ofNat (48 + n) else Char.ofNat (87 + n)

/-- Four-digit hexadecimal rendering, as in JSON \uXXXX escapes. -/
def hex4 (n : Nat) : String :=
  String.mk [hexDigit (n / 4096 % 16), hexDigit (n / 256 % 16),
             hexDigit (n / 16 % 16), hexDigit (n % 16)]

/-- Escaping of one character inside a JSON string literal, following
`JSON.stringify` for strings. -/
def jsonEscapeChar (c : Char) : String :=
  if c = '"' then "\\\""
  else if c = '\\' then "\\\\"
  else if c = '\n' then "\\n"
  else if c = '\r' then "\\r"
  else if c = '\t' then "\\t"
  else if c = Char.ofNat 8 then "\\b"
  else if c = Char.ofNat 12 then "\\f"
  else if c.toNat < 32 then "\\u" ++ hex4 c.toNat
  else String.singleton c

/-- Model of `JSON.stringify` applied to a string value. -/
def jsonStringifyString (s : String) : String :=
  "\"" ++ String.join (s.toList.map jsonEscapeChar) ++ "\""

/-- Rendering of a numeric literal into generated source.  Integral
values render as in JS; for non-integral rationals the exact JS float
formatting is abstracted by the num/den form (no claim depends on it). -/
def ratLit (q : Rat) : String :=
  if q.den = 1 then toString q.num else toString q

/-- Whitespace count at the start of a line (space or tab, the classes
relevant to the generated text). -/
def leadingWhitespaceCount (l : List Char) : Nat :=
  (l.takeWhile (fun c => c = ' ' ∨ c = '\t')).length

/-- Contribution of one line to dedent's minimal indentation: lines
matching /^(\s+)\S+/ contribute the length of their leading run. -/
def lineIndentContrib (l : List Char) : Option Nat :=
  let w := leadingWhitespaceCount l
  if 0 < w ∧ w < l.length then some w else none

/-- Model of the `dedent` tag applied to an already-interpolated string
(raw-segment unescaping of backslash-backtick, backslash-dollar and
backslash-brace is performed where the templates are transcribed):
compute the minimal indentation over lines with indented content, strip
it from every line that starts with whitespace, trim the result, and
finally replace each backslash-n pair by a newline (the behaviour
observed in the repository's generated example file). -/
def dedentStr (s : String) : String :=
  let lines := (s.splitOn "\n").map String.toList
  let mindent := (lines.filterMap lineIndentContrib).min?
  let stripped :=
    match mindent with
    | none => lines
    | some m =>
      lines.map fun l =>
        match l with
        | [] => l
        | c :: _ => if c = ' ' ∨ c = '\t' then l.drop m else l
  (String.intercalate "\n" (stripped.map String.mk)).trim.replace "\\n" "\n"

/-! ## Compiler (src/transpiler/vitest.ts) -/

/-- The single escaping step the transpiler applies to the system prompt
before embedding it into the generated program:
`spec.agent.systemPrompt.replace(/`/g, '\\`')`, on character lists. -/
def escapeBackticksList : List Char → List Char
  | [] => []
  | c :: t =>
    if c = backtickChar then '\\' :: backtickChar :: escapeBackticksList t
    else c :: escapeBackticksList t

/-- String form of the transpiler's system-prompt escaping. -/
def escapeBackticks (s : String) : String :=
  String.mk (escapeBackticksList s.toList)

/-- generateImports: the fixed import header of the generated file. -/
def generateImports : String :=
  dedentStr ("\n    import 'dotenv/config';"
    ++ "\n    import \x7b z \x7d from 'zod';"
    ++ "\n    import \x7b describe, it, expect \x7d from 'vitest';"
    ++ "\n    import dedent from 'dedent';"
    ++ "\n    import \x7b openai \x7d from '@ai-sdk/openai';"
    ++ "\n    import \x7b generateText, generateObject \x7d from 'ai';"
    ++ "\n"
    ++ "\n    // Ensure API key is available"
    ++ "\n    if (!process.env.OPENAI_API_KEY) \x7b"
    ++ "\n      console.error('Error: OPENAI_API_KEY environment variable is not set.');"
    ++ "\n      console.error('Please set it in your .env file or environment variables.');"
    ++ "\n      process.exit(1);"
    ++ "\n    \x7d"
    ++ "\n  ")

/-- Zod validator text for one nested property inside an object-typed
schema property (generateSchemas' inner mapping: string, number and
boolean map directly, everything else falls back to z.any()). -/
def nestedPropZodType (d : NestedPropDef) : String :=
  if d.type = "string" then "z.string()"
  else if d.type = "number" then "z.number()"
  else if d.type = "boolean" then "z.boolean()"
  else "z.any()"

/-- Zod validator text for one property of a named schema
(generateSchemas' outer mapping, including the nested-object branch and
the permissive z.any() fallback for unknown types). -/
def schemaPropZodType (d : PropDef) : String :=
  if d.type = "string" then "z.string()"
  else if d.type = "number" then "z.number()"
  else if d.type = "boolean" then "z.boolean()"
  else if d.type = "object" then
    match d.properties with
    | some nested =>
      "z.object(\x7b\n      "
        ++ String.intercalate ",\n      "
            (nested.map fun p => p.1 ++ ": " ++ nestedPropZodType p.2)
        ++ "\n    \x7d)"
    | none => "z.object(\x7b\x7d)"
  else "z.any()"

/-- generateSchemas: one `const NAME = z.object({...});` declaration per
named schema, joined by blank lines. -/
def generateSchemas (schemas : List (String × SchemaDef)) : String :=
  String.intercalate "\n\n" <| schemas.map fun s =>
    let schemaProps := String.intercalate ",\n"
      (s.2.properties.map fun p => "  " ++ p.1 ++ ": " ++ schemaPropZodType p.2)
    dedentStr ("\n        const " ++ s.1 ++ " = z.object(\x7b\n        "
      ++ schemaProps ++ "\n        \x7d);\n      ")

/-- Zod validator text for one tool-input property
(generateToolParameters' mapping: no object branch, unknown types fall
back to z.any()). -/
def toolParamZodType (t : String) : String :=
  if t = "string" then "z.string()"
  else if t = "number" then "z.number()"
  else if t = "boolean" then "z.boolean()"
  else "z.any()"

/-- One generated tool-input parameter declaration:
name, validator, and a .describe(...) suffix when a (truthy)
description is present. -/
def toolParamEntry (name : String) (d : PropDef) : String :=
  name ++ ": " ++ toolParamZodType d.type
    ++ (match d.description with
        | some desc =>
          if desc = "" then "" else ".describe(" ++ jsonStringifyString desc ++ ")"
        | none => "")

/-- generateToolParameters: joined parameter declarations of a tool's
input schema; empty when the schema or its property record is absent. -/
def generateToolParameters (inputSchema : Option ToolInputSchema) : String :=
  match inputSchema with
  | none => ""
  | some s =>
    match s.properties with
    | none => ""
    | some props =>
      String.intercalate ",\n          "
        (props.map fun p => toolParamEntry p.1 p.2)

/-- Rendering of a tool's output schema into the generated `schema:`
argument (`typeof tool.outputSchema === 'string' ? tool.outputSchema :
JSON.stringify(tool.outputSchema)`). -/
def renderOutputSchema : OutputSchema → String
  | .ref name => name
  | .inlineJson j => j

/-- The generated source text of one simulated tool (the plain template
literal built for one resolved tool name inside generateToolsParam). -/
def toolEntryString (name : String) (tool : Tool) : String :=
  "\n      " ++ name ++ ": \x7b"
    ++ "\n        description: " ++ jsonStringifyString tool.description ++ ","
    ++ "\n        parameters: z.object(\x7b"
    ++ "\n          " ++ generateToolParameters tool.inputSchema
    ++ "\n        \x7d),"
    ++ "\n        execute: async (params) => \x7b"
    ++ "\n          const response = await generateObject(\x7b"
    ++ "\n            model,"
    ++ "\n            prompt: " ++ String.singleton backtickChar ++ "Generate "
      ++ name ++ " result $\x7bJSON.stringify(params)\x7d" ++ String.singleton backtickChar ++ ","
    ++ "\n            schema: " ++ renderOutputSchema tool.outputSchema
    ++ "\n          \x7d);"
    ++ "\n          return response.object;"
    ++ "\n        \x7d"
    ++ "\n      \x7d"

/-- generateToolsParam: the tools object for one benchmark.  A referenced
name missing from the tools mapping yields null and is dropped by
`.filter(Boolean)` — the unresolved tool is silently omitted, no error
is raised. -/
def generateToolsParam (allTools : List (String × Tool)) (toolNames : List String) : String :=
  let toolEntries := toolNames.filterMap fun name =>
    (List.lookup name allTools).map fun tool => toolEntryString name tool
  "\x7b" ++ String.intercalate "," toolEntries ++ "\x7d"

/-- The `maxSteps:` fragment of a generated test (empty when the agent
declares no step budget; JS numeric truthiness makes 0 empty too). -/
def maxStepsFragment (maxSteps : Option Nat) : String :=
  match maxSteps with
  | some n => if n = 0 then "" else "maxSteps: " ++ toString n ++ ","
  | none => ""

/-- The trailing minimum-score assertion of a generated test (present
only when the judge declares `expected.score`). -/
def scoreFragment (score : Option ScoreMin) : String :=
  match score with
  | some sc =>
    "expect(evaluation.object.score).toBeGreaterThanOrEqual(" ++ ratLit sc.min ++ ");"
  | none => ""

/-- generateTests: one `it(...)` block per benchmark case, each dedented
individually, joined by blank lines. -/
def generateTests (spec : AgentSpec) : String :=
  String.intercalate "\n\n" <| spec.benchmarks.map fun benchmark =>
    let toolsParam :=
      match benchmark.tools with
      | some names =>
        if names.length > 0 then generateToolsParam spec.tools names else "\x7b\x7d"
      | none => "\x7b\x7d"
    let initialMessage :=
      ((benchmark.messages.find? fun m => m.role = "user").map Message.content).getD ""
    dedentStr ("\n        it('" ++ benchmark.name ++ "', async () => \x7b"
      ++ "\n          const result = await generateText(\x7b"
      ++ "\n            model,"
      ++ "\n            system: customerServiceSystemPrompt,"
      ++ "\n            prompt: " ++ jsonStringifyString initialMessage ++ ","
      ++ "\n            " ++ maxStepsFragment spec.agent.maxSteps
      ++ "\n            tools: " ++ toolsParam
      ++ "\n          \x7d);"
      ++ "\n        "
      ++ "\n          console.log('\\\\n    📊 Complete Result:');"
      ++ "\n          console.log(JSON.stringify(result, null, 2).split('\\\\n').map(line => "
        ++ String.singleton backtickChar ++ "    $\x7bline\x7d" ++ String.singleton backtickChar
        ++ ").join('\\\\n'));"
      ++ "\n        "
      ++ "\n          const evaluation = await generateObject(\x7b"
      ++ "\n            model,"
      ++ "\n            prompt: dedent" ++ String.singleton backtickChar
      ++ "\n              Given this customer service response result:"
      ++ "\n              $\x7bJSON.stringify(result, null, 2)\x7d"
      ++ "\n        "
      ++ "\n              "
        ++ benchmark.judge.evaluationPrompt.replace "\x7bresult\x7d" "$\x7bJSON.stringify(result, null, 2)\x7d"
      ++ "\n            " ++ String.singleton backtickChar ++ ","
      ++ "\n            schema: " ++ benchmark.judge.evaluationSchema
      ++ "\n          \x7d);"
      ++ "\n        "
      ++ "\n          console.log('\\\\n    🤖 Evaluation Result:');"
      ++ "\n          console.log(JSON.stringify(evaluation.object, null, 2).split('\\\\n').map(line => "
        ++ String.singleton backtickChar ++ "    $\x7bline\x7d" ++ String.singleton backtickChar
        ++ ").join('\\\\n'));"
      ++ "\n          console.log(" ++ String.singleton backtickChar
        ++ "    📈 Final Verdict: $\x7bevaluation.object.passed ? '✅ PASSED' : '❌ FAILED'\x7d"
        ++ String.singleton backtickChar ++ ");"
      ++ "\n          "
      ++ "\n          expect(evaluation.object.passed, evaluation.object.feedback).toBe(true);"
      ++ "\n          " ++ scoreFragment benchmark.judge.expected.score
      ++ "\n        \x7d);"
      ++ "\n      ")

/-- transpileToVitest: the whole generated test program for one
Specification — imports, schema declarations, and one describe block
holding the verbatim (backtick-escaped) system prompt, the model, and
the per-benchmark tests. -/
def transpileToVitest (spec : AgentSpec) : String :=
  let imports := generateImports
  let schemas := generateSchemas spec.schemas
  let tests := generateTests spec
  dedentStr ("\n    " ++ imports
    ++ "\n    \n    " ++ schemas
    ++ "\n    \n    describe('" ++ spec.metadata.name ++ "', () => \x7b"
    ++ "\n      const customerServiceSystemPrompt = dedent" ++ String.singleton backtickChar
    ++ "\n        " ++ escapeBackticks spec.agent.systemPrompt
    ++ "\n      " ++ String.singleton backtickChar ++ ";"
    ++ "\n      "
    ++ "\n      const model = openai('" ++ spec.agent.model ++ "');"
    ++ "\n      "
    ++ "\n      " ++ tests
    ++ "\n    \x7d);"
    ++ "\n  ")

/-! ## Execution Orchestrator (src/runner/vitest.ts, runTests) -/

/-- A JS `Error` value, identified by its message (`error instanceof
Error ? error : new Error(String(error))` is the identity here, since
every modelled error is already an Error). -/
structure JsError where
  message : String

/-- The per-file result block reported by the vitest host
(`file.result`): terminal state, duration, error list, and the optional
`meta.responseData` payload. -/
structure FileRes where
  state : String
  duration : Option Rat
  errors : List JsError
  responseData : Option JsonValue

/-- One file entry of `vitest.state.getFiles()`; `result` is absent when
the host produced no result block for the file. -/
structure HostFile where
  name : String
  result : Option FileRes

/-- One normalized Task Outcome of the orchestrator's RunResult. -/
structure TaskResult where
  name : String
  state : String
  duration : Option Rat
  error : Option JsError

/-- An entry of the `responseData` list of a RunResult. -/
structure RespEntry where
  taskName : String
  data : JsonValue

/-- The orchestrator's Result Report (interface RunResult). -/
structure RunResult where
  success : Bool
  taskResults : List TaskResult
  taskErrors : List JsError
  exitCode : Nat
  responseData : Option (List RespEntry)

/-- Normalization of one host file into a Task Outcome: state defaults
to "unknown" when the result block is absent, and an error is attached
only when the state is "fail" and the host's error list is non-empty
(`const error = file.result.errors?.[0]; if (error) ...`). -/
def normalizeFile (f : HostFile) : TaskResult :=
  let state := (f.result.map FileRes.state).getD "unknown"
  let duration := f.result.bind FileRes.duration
  let error : Option JsError :=
    match f.result with
    | some r => if r.state = "fail" then r.errors.head? else none
    | none => none
  ⟨f.name, state, duration, error⟩

/-- The contribution of one host file to the collected `taskErrors`
list: the first reported error of a "fail" file, nothing otherwise —
in particular nothing for a "fail" file with an empty error list. -/
def failErrors (f : HostFile) : List JsError :=
  match f.result with
  | some r =>
    if r.state = "fail" then
      match r.errors.head? with
      | some e => [e]
      | none => []
    else []
  | none => []

/-- Collection of the `meta.responseData` payloads attached by the host
to any file, keyed by file name. -/
def collectResponseData (files : List HostFile) : List RespEntry :=
  files.filterMap fun f =>
    (f.result.bind FileRes.responseData).map fun d => ⟨f.name, d⟩

/-- runTests: submits to the host and normalizes its report.  The
argument is the host interaction's outcome: `Except.ok files` is the
state reported after `vitest.start()`, `Except.error e` models the
submission itself throwing (host unavailable), handled by the catch
branch that returns success=false, no outcomes, exactly the one caught
error, and exit code 1. -/
def runTests (host : Except JsError (List HostFile)) : RunResult :=
  match host with
  | .error e => ⟨false, [], [e], 1, none⟩
  | .ok files =>
    let taskResults := files.map normalizeFile
    let taskErrors := files.flatMap failErrors
    let responseData := collectResponseData files
    ⟨taskErrors.isEmpty, taskResults, taskErrors, 0,
      if responseData.length > 0 then some responseData else none⟩

/-! ## Optimization Controller (src/optimizer/index.ts and ai.ts) -/

/-- The result record returned by optimizeAgentSpec. -/
structure OptimizationResult where
  originalSpec : AgentSpec
  optimizedSpec : AgentSpec
  iterations : Nat
  testResults : List RunResult
  improvements : List String

/-- JS `x || d` for an optional number: the default replaces both an
absent value and a (falsy) zero, as in
`const minPassRate = optimizerConfig.minPassRate || 80`. -/
def jsOrDefault (x : Option Rat) (d : Rat) : Rat :=
  match x with
  | none => d
  | some v => if v = 0 then d else v

/-- The pass-rate computation the controller performs on a Result
Report: `passRate = totalTasks > 0 ? (passedTasks / totalTasks) * 100 :
0`, counting only outcomes whose state is "pass". -/
def passRateOf (r : RunResult) : Rat :=
  let totalTasks := r.taskResults.length
  let passedTasks := (r.taskResults.filter fun task => task.state = "pass").length
  if totalTasks > 0 then ((passedTasks : Rat) / (totalTasks : Rat)) * 100 else 0

/-- optimizePromptWithAI, after the provider call: `responseText` is the
`text` of the awaited `generateText` reply (the feedback-prompt
construction that parameterizes the provider is absorbed into the
provider oracle).  An empty reply keeps the current prompt, with a
warning; a provider exception would propagate and is outside this pure
model. -/
def optimizePromptWithAI (responseText : String) (currentPrompt : String) : String :=
  if responseText = "" then currentPrompt else responseText

/-- The controller's adoption step for an improved prompt:
`currentSpec = {...currentSpec, agent: {...currentSpec.agent,
systemPrompt: improvedPrompt}}` — a fresh Specification value differing
only in the agent's system prompt. -/
def updateSystemPrompt (spec : AgentSpec) (improvedPrompt : String) : AgentSpec :=
  { spec with agent := { spec.agent with systemPrompt := improvedPrompt } }

/-- The iteration loop of optimizeAgentSpec.  `fuel` is the number of
permitted iterations still available (`iterations - i`), `i` the current
index; `run i s` is the Result Report the orchestrator returns for the
current Specification `s` at iteration `i`, `providerText i` the
inference provider's reply text on the i-th feedback call.  Each pass
runs the tests, records the report, and stops when this was the last
permitted iteration or the pass rate reached the threshold; otherwise it
adopts the improved prompt and continues. -/
def optimizeLoop (run : Nat → AgentSpec → RunResult) (providerText : Nat → String)
    (cfg : Optimizer) :
    Nat → Nat → AgentSpec → List RunResult → List String →
    AgentSpec × List RunResult × List String
  | 0, _, spec, testResults, improvements => (spec, testResults, improvements)
  | fuel + 1, i, spec, testResults, improvements =>
    let result := run i spec
    let testResults := testResults ++ [result]
    if fuel = 0 ∨ passRateOf result ≥ jsOrDefault cfg.minPassRate 80 then
      (spec, testResults, improvements)
    else
      optimizeLoop run providerText cfg fuel (i + 1)
        (updateSystemPrompt spec
          (optimizePromptWithAI (providerText i) spec.agent.systemPrompt))
        testResults
        (improvements ++
          ["Iteration " ++ toString (i + 1)
            ++ ": Updated system prompt based on test results"])

/-- optimizeAgentSpec: the optimization controller.  File bookkeeping
(writing the transpiled program to the per-run temporary path before
each run, deleting it at the end) is carried by the `run` oracle, which
receives the current Specification exactly as the regenerated test file
and injected system message do.  The returned record keeps the input
Specification as `originalSpec`, the last Specification tried as
`optimizedSpec`, the configured budget as `iterations`, and the full
report history. -/
def optimizeAgentSpec (run : Nat → AgentSpec → RunResult)
    (providerText : Nat → String) (spec : AgentSpec) (cfg : Optimizer) :
    OptimizationResult :=
  let out := optimizeLoop run providerText cfg cfg.iterations 0 spec [] []
  ⟨spec, out.1, cfg.iterations, out.2.1, out.2.2⟩

/-! ## Semantics used to state the claims -/

/-- Semantics of the scalar zod validator expressions the transpiler
emits: which runtime values each accepts.  `none` for validator texts
whose semantics this model does not assign (composite object
validators). -/
def validatorAccepts (validator : String) (v : JsonValue) : Option Bool :=
  if validator = "z.string()" then
    some (match v with | .str _ => true | _ => false)
  else if validator = "z.number()" then
    some (match v with | .num _ => true | _ => false)
  else if validator = "z.boolean()" then
    some (match v with | .bool _ => true | _ => false)
  else if validator = "z.any()" then some true
  else none

/-- Cooked value of a single-character escape sequence in a JS template
literal (backslash followed by `c`); unrecognized escapes yield the
character itself. -/
def cookedEscapeChar (c : Char) : Char :=
  if c = 'n' then '\n'
  else if c = 't' then '\t'
  else if c = 'r' then '\r'
  else if c = 'b' then Char.ofNat 8
  else if c = 'f' then Char.ofNat 12
  else if c = 'v' then Char.ofNat 11
  else if c = '0' then Char.ofNat 0
  else c

/-- Parse-back of a candidate template-literal body: the cooked text the
literal denotes, or `none` when the body is not a pure text literal —
an unescaped backtick terminates the literal early, a trailing
backslash escapes the closing delimiter, a dollar-brace starts an
interpolation (so the body no longer denotes its own text), and
carriage returns are normalized to newlines by the cooking rules.
Hexadecimal and unicode escapes are not produced by the transpiler's
escaping and stay unassigned. -/
def templateUnescape : List Char → Option (List Char)
  | [] => some []
  | [c] =>
    if c = '\\' then none
    else if c = backtickChar then none
    else if c = '\r' then some ['\n']
    else some [c]
  | c :: d :: rest =>
    if c = '\\' then
      if d = 'x' ∨ d = 'u' then none
      else (templateUnescape rest).map fun r => cookedEscapeChar d :: r
    else if c = backtickChar then none
    else if c = '$' then
      if d = '{' then none
      else (templateUnescape (d :: rest)).map fun r => c :: r
    else if c = '\r' then
      if d = '\n' then (templateUnescape rest).map fun r => '\n' :: r
      else (templateUnescape (d :: rest)).map fun r => '\n' :: r
    else (templateUnescape (d :: rest)).map fun r => c :: r

/-- True when the text contains a dollar sign immediately followed by an
opening brace (the start of a template interpolation). -/
def hasDollarBrace : List Char → Bool
  | [] => false
  | [_] => false
  | c :: d :: t => (c = '$' && d = '{') || hasDollarBrace (d :: t)

/-! ## Concrete inputs used by witnesses and counterexamples -/

/-- A minimal concrete Specification. -/
def exSpec : AgentSpec :=
  { metadata := ⟨"example", "1.0.0", "example spec", none⟩
    schemas := []
    generators := none
    agent := ⟨"gpt-4o-mini", "You are a helpful assistant.", .str "auto", none⟩
    tools := []
    benchmarks := [] }

/-- A concrete optimizer configuration with an iteration budget of 3 and
the default threshold. -/
def exCfg3 : Optimizer := ⟨"gpt-4o", 3, "error_analysis", none, none⟩

/-- A Result Report whose single outcome failed without a host-supplied
error. -/
def exFailResult : RunResult := ⟨true, [⟨"case1", "fail", none, none⟩], [], 0, none⟩

/-- A Result Report whose single outcome passed. -/
def exPassResult : RunResult := ⟨true, [⟨"case1", "pass", none, none⟩], [], 0, none⟩

/-- A host run whose every case fails (a judge that always returns
passed: false). -/
def exFailRun : Nat → AgentSpec → RunResult := fun _ _ => exFailResult

/-- A host run whose every case passes. -/
def exPassRun : Nat → AgentSpec → RunResult := fun _ _ => exPassResult

/-- An inference provider that always replies with empty text. -/
def exEmptyProvider : Nat → String := fun _ => ""

/-- An inference provider that always replies with a fixed non-empty
prompt. -/
def exProvider : Nat → String := fun _ => "Be terse."

/-! ## Helper lemmas -/

/-- Dropping the entries on which the mapped function returns none does
not change a filterMap over it. -/
theorem filterMap_self_filter {α β : Type} (f : α → Option β) (l : List α) :
    l.filterMap f = (l.filter fun a => (f a).isSome).filterMap f := by
  induction l with
  | nil => rfl
  | cons a t ih =>
    simp only [List.filterMap_cons, List.filter_cons]
    cases h : f a <;> simp [h, ih]

/-- A Result Report in which no outcome has state "pass" has pass rate
zero. -/
theorem passRateOf_eq_zero_of_no_pass (r : RunResult)
    (h : ∀ t ∈ r.taskResults, t.state ≠ "pass") : passRateOf r = 0 := by
  unfold passRateOf
  have hf : (r.taskResults.filter fun task => task.state = "pass") = [] :=
    List.filter_eq_nil_iff.mpr (by intro a ha; simpa using h a ha)
  rw [hf]
  by_cases ht : r.taskResults.length > 0
  · rw [if_pos ht]; simp
  · rw [if_neg ht]

/-- The report history produced by the iteration loop grows by at most
one entry per unit of remaining budget. -/
theorem optimizeLoop_length_le (run : Nat → AgentSpec → RunResult)
    (pt : Nat → String) (cfg : Optimizer) :
    ∀ fuel i spec trs imps,
      ((optimizeLoop run pt cfg fuel i spec trs imps).2.1).length ≤ trs.length + fuel := by
  intro fuel
  induction fuel with
  | zero => intro i spec trs imps; simp [optimizeLoop]
  | succ n ih =>
    intro i spec trs imps
    simp only [optimizeLoop]
    by_cases h : n = 0 ∨ passRateOf (run i spec) ≥ jsOrDefault cfg.minPassRate 80
    · rw [if_pos h]
      simp only [List.length_append, List.length_singleton]
      omega
    · rw [if_neg h]
      calc ((optimizeLoop run pt cfg n (i + 1)
              (updateSystemPrompt spec
                (optimizePromptWithAI (pt i) spec.agent.systemPrompt))
              (trs ++ [run i spec])
              (imps ++ ["Iteration " ++ toString (i + 1)
                ++ ": Updated system prompt based on test results"])).2.1).length
            ≤ (trs ++ [run i spec]).length + n := ih _ _ _ _
        _ = trs.length + (n + 1) := by simp only [List.length_append, List.length_singleton]; omega

/-- When every iteration's pass rate stays below the threshold, the loop
spends its whole budget, recording one report per permitted iteration. -/
theorem optimizeLoop_length_eq_of_below (run : Nat → AgentSpec → RunResult)
    (pt : Nat → String) (cfg : Optimizer)
    (hrun : ∀ i s, passRateOf (run i s) < jsOrDefault cfg.minPassRate 80) :
    ∀ fuel i spec trs imps,
      ((optimizeLoop run pt cfg fuel i spec trs imps).2.1).length = trs.length + fuel := by
  intro fuel
  induction fuel with
  | zero => intro i spec trs imps; simp [optimizeLoop]
  | succ n ih =>
    intro i spec trs imps
    simp only [optimizeLoop]
    by_cases h : n = 0
    · subst h
      rw [if_pos (Or.inl rfl)]
      simp only [List.length_append, List.length_singleton]
    · have hcond : ¬ (n = 0 ∨ passRateOf (run i spec) ≥ jsOrDefault cfg.minPassRate 80) := by
        push_neg
        exact ⟨h, not_le.mp (by simpa using not_le.mpr (hrun i spec))⟩
      rw [if_neg hcond]
      rw [ih]
      simp only [List.length_append, List.length_singleton]
      omega

/-- Every report recorded before the final one was below the threshold:
the loop never continues past a converged iteration. -/
theorem optimizeLoop_dropLast_below (run : Nat → AgentSpec → RunResult)
    (pt : Nat → String) (cfg : Optimizer) :
    ∀ fuel i spec trs imps,
      (∀ r ∈ trs, passRateOf r < jsOrDefault cfg.minPassRate 80) →
      ∀ r ∈ ((optimizeLoop run pt cfg fuel i spec trs imps).2.1).dropLast,
        passRateOf r < jsOrDefault cfg.minPassRate 80 := by
  intro fuel
  induction fuel with
  | zero =>
    intro i spec trs imps hacc r hr
    simp only [optimizeLoop] at hr
    exact hacc r ((List.dropLast_sublist trs).subset hr)
  | succ n ih =>
    intro i spec trs imps hacc
    simp only [optimizeLoop]
    by_cases h : n = 0 ∨ passRateOf (run i spec) ≥ jsOrDefault cfg.minPassRate 80
    · rw [if_pos h]
      intro r hr
      rw [List.dropLast_concat] at hr
      exact hacc r hr
    · rw [if_neg h]
      apply ih
      intro r hr
      rcases List.mem_append.mp hr with h1 | h2
      · exact hacc r h1
      · have : r = run i spec := by simpa using h2
        subst this
        push_neg at h
        exact h.2

/-- When the provider replies with empty text on every feedback call,
the current Specification's system prompt never changes. -/
theorem optimizeLoop_prompt_eq (run : Nat → AgentSpec → RunResult)
    (pt : Nat → String) (cfg : Optimizer) (hpt : ∀ j, pt j = "") :
    ∀ fuel i spec trs imps,
      ((optimizeLoop run pt cfg fuel i spec trs imps).1).agent.systemPrompt
        = spec.agent.systemPrompt := by
  intro fuel
  induction fuel with
  | zero => intro i spec trs imps; simp [optimizeLoop]
  | succ n ih =>
    intro i spec trs imps
    simp only [optimizeLoop]
    by_cases h : n = 0 ∨ passRateOf (run i spec) ≥ jsOrDefault cfg.minPassRate 80
    · rw [if_pos h]
    · rw [if_neg h]
      rw [ih]
      simp [updateSystemPrompt, optimizePromptWithAI, hpt i]

/-! ## Claims -/

/-- C6: when submission to the test host itself throws, runTests returns
a Result Report with success = false, an empty Task Outcome sequence,
and exactly one captured error, instead of propagating the exception. -/
theorem c6_host_throw_yields_fatal_report (e : JsError) :
    runTests (Except.error e) = ⟨false, [], [e], 1, none⟩ ∧
      ((runTests (Except.error e)).taskErrors).length = 1 :=
  ⟨rfl, rfl⟩

/-- C9: the controller's prompt-adoption step changes only the agent's
system-prompt field — metadata, schemas, generators, tools, benchmarks
and the other agent fields are untouched — and the input Specification
value itself is returned unchanged as originalSpec. -/
theorem c9_update_changes_only_prompt (spec : AgentSpec) (p : String)
    (run : Nat → AgentSpec → RunResult) (pt : Nat → String) (cfg : Optimizer) :
    (updateSystemPrompt spec p).agent.systemPrompt = p ∧
      (updateSystemPrompt spec p).metadata = spec.metadata ∧
      (updateSystemPrompt spec p).schemas = spec.schemas ∧
      (updateSystemPrompt spec p).generators = spec.generators ∧
      (updateSystemPrompt spec p).tools = spec.tools ∧
      (updateSystemPrompt spec p).benchmarks = spec.benchmarks ∧
      (updateSystemPrompt spec p).agent.model = spec.agent.model ∧
      (updateSystemPrompt spec p).agent.toolChoice = spec.agent.toolChoice ∧
      (updateSystemPrompt spec p).agent.maxSteps = spec.agent.maxSteps ∧
      (optimizeAgentSpec run pt spec cfg).originalSpec = spec :=
  ⟨rfl, rfl, rfl, rfl, rfl, rfl, rfl, rfl, rfl, rfl⟩

/-- C2 counterexample: a host report with one "fail" file and an empty
error list yields a Task Outcome with state "fail" and no error — the
claimed invariant fails, no error is synthesized. -/
theorem c2_counterexample :
    ¬ (∀ t ∈ (runTests (Except.ok [⟨"case1", some ⟨"fail", none, [], none⟩⟩])).taskResults,
        t.state = "fail" → t.error.isSome = true) := by
  decide

/-- C2 amended: a fail-state Task Outcome carries exactly the host's
first reported error; when the host reports fail with an empty error
list the outcome carries no error and contributes nothing to the
captured error list — the orchestrator synthesizes nothing. -/
theorem c2_fail_error_comes_from_host (files : List HostFile) (f : HostFile)
    (r : FileRes) (hf : f.result = some r) (hs : r.state = "fail") :
    (normalizeFile f).error = r.errors.head? ∧
      failErrors f = (r.errors.head?).toList ∧
      (runTests (Except.ok files)).taskResults = files.map normalizeFile := by
  refine ⟨?_, ?_, rfl⟩
  · simp [normalizeFile, hf, hs]
  · simp only [failErrors, hf, hs, if_pos]
    cases r.errors <;> simp

/-- C2 witness: the amended statement evaluated on a concrete fail
report without host errors. -/
theorem c2_witness :
    (normalizeFile ⟨"case1", some ⟨"fail", none, [], none⟩⟩).error
        = (List.head? ([] : List JsError)) ∧
      failErrors ⟨"case1", some ⟨"fail", none, [], none⟩⟩
        = (List.head? ([] : List JsError)).toList ∧
      (runTests (Except.ok [⟨"case1", some ⟨"fail", none, [], none⟩⟩])).taskResults
        = [(⟨"case1", some ⟨"fail", none, [], none⟩⟩ : HostFile)].map normalizeFile :=
  c2_fail_error_comes_from_host [⟨"case1", some ⟨"fail", none, [], none⟩⟩]
    ⟨"case1", some ⟨"fail", none, [], none⟩⟩ ⟨"fail", none, [], none⟩ rfl rfl

/-- C4 counterexample: with one passed outcome out of one, the computed
pass rate is 100, not the ratio 1, and does not lie in the unit
interval. -/
theorem c4_counterexample :
    passRateOf exPassResult = 100 ∧ ¬ passRateOf exPassResult ≤ 1 := by
  constructor
  · norm_num [passRateOf, exPassResult]
  · norm_num [passRateOf, exPassResult]

/-- C4 amended: the controller's pass rate is the percentage
100 * passed / total when total > 0 (counting only "pass" outcomes),
0 when total = 0, and always lies in the interval from 0 to 100. -/
theorem c4_pass_rate_percentage (r : RunResult) :
    0 ≤ passRateOf r ∧ passRateOf r ≤ 100 ∧
      (r.taskResults.length = 0 → passRateOf r = 0) ∧
      (0 < r.taskResults.length →
        passRateOf r =
          (((r.taskResults.filter fun task => task.state = "pass").length : Rat)
            / (r.taskResults.length : Rat)) * 100) := by
  unfold passRateOf
  have hpt : (r.taskResults.filter fun task => task.state = "pass").length
      ≤ r.taskResults.length := List.length_filter_le _ _
  by_cases h : r.taskResults.length > 0
  · rw [if_pos h]
    refine ⟨by positivity, ?_, fun h0 => absurd h (by omega), fun _ => rfl⟩
    have h1 : ((r.taskResults.filter fun task => task.state = "pass").length : Rat)
        / (r.taskResults.length : Rat) ≤ 1 :=
      div_le_one_of_le₀ (by exact_mod_cast hpt) (by positivity)
    calc ((r.taskResults.filter fun task => task.state = "pass").length : Rat)
          / (r.taskResults.length : Rat) * 100 ≤ 1 * 100 :=
        mul_le_mul_of_nonneg_right h1 (by norm_num)
      _ = 100 := by norm_num
  · rw [if_neg h]
    exact ⟨le_refl 0, by norm_num, fun _ => rfl, fun hpos => absurd hpos h⟩

/-- C4 witness: the amended statement evaluated on a concrete one-pass
report. -/
theorem c4_witness :
    0 ≤ passRateOf exPassResult ∧
      passRateOf exPassResult =
        (((exPassResult.taskResults.filter fun task => task.state = "pass").length : Rat)
          / (exPassResult.taskResults.length : Rat)) * 100 :=
  ⟨(c4_pass_rate_percentage exPassResult).1,
    (c4_pass_rate_percentage exPassResult).2.2.2 (by decide)⟩

/-- C1 counterexample: a benchmark referencing the tool "lookup" when
the tools mapping is empty compiles without any error into the empty
tools object — the unresolved tool is silently omitted and its name
never appears in the generated fragment. -/
theorem c1_counterexample :
    generateToolsParam [] ["lookup"] = "\x7b\x7d" ∧
      ¬ List.IsInfix ("lookup".toList) ((generateToolsParam [] ["lookup"]).toList) := by
  constructor
  · rfl
  · decide

/-- C1 amended: compilation never fails on an unresolved tool
reference; generateToolsParam produces exactly the tools object of the
resolvable names, silently omitting every referenced name missing from
the tools mapping. -/
theorem c1_unresolved_tools_omitted (allTools : List (String × Tool))
    (toolNames : List String) :
    generateToolsParam allTools toolNames =
      generateToolsParam allTools
        (toolNames.filter fun n => (List.lookup n allTools).isSome) := by
  unfold generateToolsParam
  rw [filterMap_self_filter
    (fun name => (List.lookup name allTools).map fun tool => toolEntryString name tool)
    toolNames]
  simp only [Option.isSome_map']

/-- C7: a declared property type "string" compiles to the z.string()
validator accepting exactly string values, both for named schemas and
for tool inputs; an unsupported type such as "vector3" compiles to the
accept-anything z.any() validator, and compilation succeeds, producing
the permissive parameter declaration. -/
theorem c7_string_and_unknown_property_types (v : JsonValue) (d : Option String) :
    toolParamZodType "string" = "z.string()" ∧
      toolParamZodType "vector3" = "z.any()" ∧
      validatorAccepts "z.string()" v = some v.isString ∧
      validatorAccepts "z.any()" v = some true ∧
      schemaPropZodType ⟨"string", d, none⟩ = "z.string()" ∧
      schemaPropZodType ⟨"vector3", d, none⟩ = "z.any()" ∧
      generateToolParameters
          (some ⟨"object", some [("pos", ⟨"vector3", none, none⟩)]⟩) = "pos: z.any()" := by
  refine ⟨rfl, rfl, ?_, rfl, rfl, rfl, rfl⟩
  cases v <;> rfl

/-- Unfolding of one iteration of the loop. -/
theorem optimizeLoop_succ (run : Nat → AgentSpec → RunResult) (pt : Nat → String)
    (cfg : Optimizer) (fuel i : Nat) (spec : AgentSpec) (trs : List RunResult)
    (imps : List String) :
    optimizeLoop run pt cfg (fuel + 1) i spec trs imps =
      if fuel = 0 ∨ passRateOf (run i spec) ≥ jsOrDefault cfg.minPassRate 80 then
        (spec, trs ++ [run i spec], imps)
      else
        optimizeLoop run pt cfg fuel (i + 1)
          (updateSystemPrompt spec
            (optimizePromptWithAI (pt i) spec.agent.systemPrompt))
          (trs ++ [run i spec])
          (imps ++ ["Iteration " ++ toString (i + 1)
            ++ ": Updated system prompt based on test results"]) := rfl

/-- Pass rate of the concrete all-pass report. -/
theorem passRateOf_exPassResult : passRateOf exPassResult = 100 := by
  norm_num [passRateOf, exPassResult]

/-- The loop on the concrete all-pass run converges in its first
iteration. -/
theorem optimizeLoop_exPass_eval :
    optimizeLoop exPassRun exEmptyProvider exCfg3 3 0 exSpec [] []
      = (exSpec, [exPassResult], []) := by
  rw [show (3 : Nat) = 2 + 1 from rfl, optimizeLoop_succ]
  rw [if_pos]
  · simp [exPassRun]
  · right
    rw [show exPassRun 0 exSpec = exPassResult from rfl, passRateOf_exPassResult]
    norm_num [jsOrDefault, exCfg3]

/-- C3: the controller executes at most the configured number of
iterations (each recorded as one report), never continues past an
iteration whose pass rate reached the threshold (every report before
the last one is below it), and with a budget of 3 and a judge that
fails every case it runs exactly 3 iterations, recording a history of
length 3. -/
theorem c3_budget_and_convergence (run : Nat → AgentSpec → RunResult)
    (pt : Nat → String) (spec : AgentSpec) (cfg : Optimizer) :
    ((optimizeAgentSpec run pt spec cfg).testResults).length ≤ cfg.iterations ∧
      (∀ r ∈ ((optimizeAgentSpec run pt spec cfg).testResults).dropLast,
          passRateOf r < jsOrDefault cfg.minPassRate 80) ∧
      (cfg.iterations = 3 →
        0 < jsOrDefault cfg.minPassRate 80 →
        (∀ i s, ∀ t ∈ (run i s).taskResults, t.state ≠ "pass") →
        ((optimizeAgentSpec run pt spec cfg).testResults).length = 3) := by
  refine ⟨?_, ?_, ?_⟩
  · simpa [optimizeAgentSpec] using
      optimizeLoop_length_le run pt cfg cfg.iterations 0 spec [] []
  · intro r hr
    refine optimizeLoop_dropLast_below run pt cfg cfg.iterations 0 spec [] [] ?_ r ?_
    · intro x hx; exact absurd hx (List.not_mem_nil x)
    · simpa [optimizeAgentSpec] using hr
  · intro h3 hmin hfail
    have hz : ∀ i s, passRateOf (run i s) < jsOrDefault cfg.minPassRate 80 := fun i s => by
      rw [passRateOf_eq_zero_of_no_pass (run i s) (hfail i s)]
      exact hmin
    have hlen := optimizeLoop_length_eq_of_below run pt cfg hz cfg.iterations 0 spec [] []
    rw [h3] at hlen
    show (optimizeLoop run pt cfg cfg.iterations 0 spec [] []).2.1.length = 3
    rw [h3]
    simpa using hlen

/-- C3 witness: on the concrete always-fail judge with budget 3, the
recorded history has length 3. -/
theorem c3_witness :
    (optimizeAgentSpec exFailRun exEmptyProvider exSpec exCfg3).testResults.length = 3 :=
  (c3_budget_and_convergence exFailRun exEmptyProvider exSpec exCfg3).2.2 rfl
    (by norm_num [jsOrDefault, exCfg3])
    (by
      intro i s t ht
      simp only [exFailRun, exFailResult, List.mem_singleton] at ht
      subst ht
      decide)

/-- C10: the `iterations` field of the returned record always equals the
configured budget while the executed-iteration history never exceeds it,
and on a run converging in the first iteration with budget 3 the field
is 3 while the history has length 1 — strictly smaller. -/
theorem c10_iterations_field_is_budget :
    (∀ (run : Nat → AgentSpec → RunResult) (pt : Nat → String)
        (spec : AgentSpec) (cfg : Optimizer),
        (optimizeAgentSpec run pt spec cfg).iterations = cfg.iterations ∧
          ((optimizeAgentSpec run pt spec cfg).testResults).length ≤ cfg.iterations) ∧
      (optimizeAgentSpec exPassRun exEmptyProvider exSpec exCfg3).iterations = 3 ∧
      (optimizeAgentSpec exPassRun exEmptyProvider exSpec exCfg3).testResults.length = 1 := by
  refine ⟨fun run pt spec cfg => ⟨rfl, ?_⟩, rfl, ?_⟩
  · simpa [optimizeAgentSpec] using
      optimizeLoop_length_le run pt cfg cfg.iterations 0 spec [] []
  · show (optimizeLoop exPassRun exEmptyProvider exCfg3 exCfg3.iterations 0
        exSpec [] []).2.1.length = 1
    rw [show exCfg3.iterations = 3 from rfl, optimizeLoop_exPass_eval]
    rfl

/-- C5: when every feedback call returns empty text, the step keeps the
unchanged current prompt, the final Specification's system prompt is the
initial one, and in particular it is non-empty whenever the initial
prompt is. -/
theorem c5_empty_feedback_keeps_prompt (run : Nat → AgentSpec → RunResult)
    (pt : Nat → String) (spec : AgentSpec) (cfg : Optimizer)
    (hpt : ∀ j, pt j = "") :
    (∀ p, optimizePromptWithAI "" p = p) ∧
      (optimizeAgentSpec run pt spec cfg).optimizedSpec.agent.systemPrompt
        = spec.agent.systemPrompt ∧
      (spec.agent.systemPrompt ≠ "" →
        (optimizeAgentSpec run pt spec cfg).optimizedSpec.agent.systemPrompt ≠ "") := by
  have hmain : (optimizeAgentSpec run pt spec cfg).optimizedSpec.agent.systemPrompt
      = spec.agent.systemPrompt := by
    show ((optimizeLoop run pt cfg cfg.iterations 0 spec [] []).1).agent.systemPrompt
      = spec.agent.systemPrompt
    exact optimizeLoop_prompt_eq run pt cfg hpt cfg.iterations 0 spec [] []
  exact ⟨fun p => rfl, hmain, fun hne => hmain ▸ hne⟩

/-- C5 witness: the concrete always-fail run with an always-empty
provider ends with the original, non-empty system prompt. -/
theorem c5_witness :
    (optimizeAgentSpec exFailRun exEmptyProvider exSpec exCfg3).optimizedSpec.agent.systemPrompt
        = exSpec.agent.systemPrompt ∧
      (optimizeAgentSpec exFailRun exEmptyProvider exSpec exCfg3).optimizedSpec.agent.systemPrompt
        ≠ "" :=
  ⟨(c5_empty_feedback_keeps_prompt exFailRun exEmptyProvider exSpec exCfg3
      fun _ => rfl).2.1,
    (c5_empty_feedback_keeps_prompt exFailRun exEmptyProvider exSpec exCfg3
      fun _ => rfl).2.2 (by decide)⟩

/-! ## Template-literal round trip (claim C8) -/

/-- Parsing an escaped backtick recovers the backtick. -/
theorem tu_escaped_backtick (l : List Char) :
    templateUnescape ('\\' :: backtickChar :: l)
      = (templateUnescape l).map fun r => backtickChar :: r := rfl

/-- Parsing a final ordinary character. -/
theorem tu_single (c : Char) (h1 : c ≠ '\\') (h2 : c ≠ backtickChar)
    (h3 : c ≠ '\r') : templateUnescape [c] = some [c] := by
  simp only [templateUnescape, if_neg h1, if_neg h2, if_neg h3]

/-- Parsing an ordinary character followed by anything that does not
open an interpolation. -/
theorem tu_cons (c d : Char) (l : List Char) (h1 : c ≠ '\\')
    (h2 : c ≠ backtickChar) (h3 : c ≠ '\r') (h4 : ¬(c = '$' ∧ d = '{')) :
    templateUnescape (c :: d :: l)
      = (templateUnescape (d :: l)).map fun r => c :: r := by
  by_cases hc : c = '$'
  · subst hc
    have hd : d ≠ '{' := fun h => h4 ⟨rfl, h⟩
    simp only [templateUnescape, if_neg h1, if_neg h2, if_pos rfl, if_neg hd, if_true]
  · simp only [templateUnescape, if_neg h1, if_neg h2, if_neg hc, if_neg h3]

/-- Core round-trip property of the transpiler's escaping: on prompts
free of backslashes, carriage returns and interpolation openers, the
escaped text parses back to the original. -/
theorem templateUnescape_escape_list :
    ∀ l : List Char, '\\' ∉ l → '\r' ∉ l → hasDollarBrace l = false →
      templateUnescape (escapeBackticksList l) = some l := by
  intro l
  induction l with
  | nil => intro _ _ _; rfl
  | cons c t ih =>
    intro hbs hcr hdb
    have hbs' : '\\' ∉ t := fun h => hbs (List.mem_cons_of_mem _ h)
    have hcr' : '\r' ∉ t := fun h => hcr (List.mem_cons_of_mem _ h)
    have hdb' : hasDollarBrace t = false := by
      cases t with
      | nil => rfl
      | cons e t' =>
        have hh : hasDollarBrace (c :: e :: t')
            = ((c = '$' && e = '{') || hasDollarBrace (e :: t')) := rfl
        rw [hh] at hdb
        exact (Bool.or_eq_false_iff.mp hdb).2
    have hc1 : c ≠ '\\' := fun h => hbs (by rw [h]; exact List.mem_cons_self _ _)
    have hc3 : c ≠ '\r' := fun h => hcr (by rw [h]; exact List.mem_cons_self _ _)
    by_cases hcb : c = backtickChar
    · subst hcb
      have he : escapeBackticksList (backtickChar :: t)
          = '\\' :: backtickChar :: escapeBackticksList t := by
        simp [escapeBackticksList]
      rw [he, tu_escaped_backtick, ih hbs' hcr' hdb']
      rfl
    · have he : escapeBackticksList (c :: t) = c :: escapeBackticksList t := by
        simp [escapeBackticksList, hcb]
      rw [he]
      cases t with
      | nil => simpa [escapeBackticksList] using tu_single c hc1 hcb hc3
      | cons e t' =>
        have hdp : ¬ (c = '$' ∧ e = '{') := by
          intro hpair
          have hh : hasDollarBrace (c :: e :: t')
              = ((c = '$' && e = '{') || hasDollarBrace (e :: t')) := rfl
          rw [hh] at hdb
          have hfirst := (Bool.or_eq_false_iff.mp hdb).1
          simp [hpair.1, hpair.2] at hfirst
        by_cases heb : e = backtickChar
        · subst heb
          have he2 : escapeBackticksList (backtickChar :: t')
              = '\\' :: backtickChar :: escapeBackticksList t' := by
            simp [escapeBackticksList]
          rw [he2]
          rw [tu_cons c '\\' (backtickChar :: escapeBackticksList t') hc1 hcb hc3
            (fun hp => absurd hp.2 (by decide))]
          rw [show ('\\' :: backtickChar :: escapeBackticksList t')
              = escapeBackticksList (backtickChar :: t') from he2.symm]
          rw [ih hbs' hcr' hdb']
          rfl
        · have he2 : escapeBackticksList (e :: t') = e :: escapeBackticksList t' := by
            simp [escapeBackticksList, heb]
          rw [he2]
          rw [tu_cons c e (escapeBackticksList t') hc1 hcb hc3 hdp]
          rw [show (e :: escapeBackticksList t') = escapeBackticksList (e :: t')
              from he2.symm]
          rw [ih hbs' hcr' hdb']
          rfl

/-- C8 counterexample: the transpiler's escaping is not a lossless
serialization — a prompt consisting of one backslash escapes to a body
that is not a valid template literal (its backslash escapes the closing
delimiter), and a prompt containing an interpolation opener escapes to a
body that no longer denotes its own text; in neither case does parsing
the generated literal back yield the original prompt. -/
theorem c8_counterexample :
    templateUnescape ((escapeBackticks "\\").toList) = none ∧
      templateUnescape ((escapeBackticks "$\x7bx\x7d").toList) = none := by
  constructor <;> rfl

/-- C8 amended: the centralized escaping handles only backtick
characters, so the round trip (escape, then parse the generated literal
body back) returns the original prompt exactly for prompts containing
no backslash, no carriage return, and no interpolation opener; outside
that fragment it can fail. -/
theorem c8_escape_round_trip (s : String)
    (hbs : '\\' ∉ s.toList) (hcr : '\r' ∉ s.toList)
    (hdb : hasDollarBrace s.toList = false) :
    templateUnescape ((escapeBackticks s).toList) = some s.toList := by
  have hmk : (escapeBackticks s).toList = escapeBackticksList s.toList := rfl
  rw [hmk]
  exact templateUnescape_escape_list s.toList hbs hcr hdb

/-- C8 witness: a concrete prompt with embedded backticks and spaces
round-trips exactly. -/
theorem c8_witness :
    templateUnescape ((escapeBackticks "You are `helpful`.").toList)
      = some ("You are `helpful`.").toList :=
  c8_escape_round_trip "You are `helpful`." (by decide) (by decide) (by decide)
